import Mathlib

/-!
Verification development for the gorgias-brain support-response assistant.

We give a shallow embedding of the core pipeline:
* `backend/services/pii_scrubber.py` (`PIIService.scrub`), including a small
  backtracking regular-expression engine mirroring Python `re` semantics
  (leftmost match, left-biased alternation, greedy/lazy bounded repetition,
  ASCII word boundaries) for the four patterns the scrubber uses;
* `backend/services/reasoning_engine.py` (`ReasoningEngine._get_system_prompt`
  and the post-gather part of `ReasoningEngine.generate_response`);
* `backend/services/vector_store.py` (`VectorService.embed_and_store`);
* `backend/routers/inference.py` (`gorgias_widget`).

External effects (embedding provider, vector index, language model, clock,
Gorgias fetch) are modelled as explicit environment data; machine floats are
modelled as rationals; Python exceptions as `Except`/`Option` values.
-/

set_option maxRecDepth 4000

namespace GorgiasBrain

/-! ### A small regex engine (Python `re` semantics for the scrubber patterns)

`RE` is the abstract syntax needed by `pii_scrubber.py`: character classes,
concatenation, left-biased alternation, bounded/unbounded repetition (greedy
or lazy) and the word-boundary assertion `\b`.  Matching is by the classic
list-of-successes technique: `mrun` returns all possible end positions of a
match starting at `i`, in backtracking-preference order, so the head of the
list is the match Python's engine would pick at that start position. -/

inductive RE where
  | eps
  | char (p : Char → Bool)
  | seq (a b : RE)
  | alt (a b : RE)
  | rep (greedy : Bool) (lo : Nat) (hi : Option Nat) (r : RE)
  | wordB
deriving Inhabited

/-- ASCII word character, as in Python `\w` on ASCII text. -/
def isWordChar (c : Char) : Bool := c.isAlpha || c.isDigit || c = '_'

def atWord (s : List Char) (i : Nat) : Bool :=
  match s[i]? with
  | some c => isWordChar c
  | none => false

/-- Python `\b`: word-ness differs between the previous and the next character
(positions outside the string count as non-word). -/
def isBoundaryAt (s : List Char) (i : Nat) : Bool :=
  (if i = 0 then false else atWord s (i - 1)) != atWord s i

/-- All end positions of a match of `re` on `s` starting at `i`, in
backtracking-preference order.  `fuel` bounds recursion depth; it is always
instantiated large enough for the concrete strings considered. -/
def mrun : Nat → RE → List Char → Nat → List Nat
  | 0, _, _, _ => []
  | fuel + 1, re, s, i =>
    match re with
    | .eps => [i]
    | .wordB => if isBoundaryAt s i then [i] else []
    | .char p =>
      match s[i]? with
      | some c => if p c then [i + 1] else []
      | none => []
    | .seq a b => (mrun fuel a s i).flatMap (fun j => mrun fuel b s j)
    | .alt a b => mrun fuel a s i ++ mrun fuel b s i
    | .rep g lo hi r =>
      match lo with
      | lo' + 1 =>
        (mrun fuel r s i).flatMap (fun j => mrun fuel (.rep g lo' (hi.map (· - 1)) r) s j)
      | 0 =>
        match hi with
        | some 0 => [i]
        | _ =>
          let cont := (mrun fuel r s i).flatMap (fun j =>
            if i < j then mrun fuel (.rep g 0 (hi.map (· - 1)) r) s j else [])
          if g then cont ++ [i] else i :: cont

def matchFuel : Nat := 1000

/-- End position of the match Python's engine picks at start `i`, if any. -/
def firstMatchEnd (re : RE) (s : List Char) (i : Nat) : Option Nat :=
  (mrun matchFuel re s i).head?

/-- Non-overlapping matches, scanning start positions left to right as
`re.sub` does (all matches are located in the original string before any
replacement happens). -/
def scan : Nat → RE → List Char → Nat → List (Nat × Nat)
  | 0, _, _, _ => []
  | fuel + 1, re, s, i =>
    if s.length < i then []
    else
      match firstMatchEnd re s i with
      | some j => if i < j then (i, j) :: scan fuel re s j else scan fuel re s (i + 1)
      | none => scan fuel re s (i + 1)

/-- Replace the (disjoint, ordered) spans `ms` in `s` by `repl`. -/
def splice (repl : List Char) : List Char → Nat → List (Nat × Nat) → List Char
  | s, pos, [] => s.drop pos
  | s, pos, (a, b) :: ms => (s.drop pos).take (a - pos) ++ repl ++ splice repl s b ms

/-- Python `pattern.sub(repl, s)` for the patterns at hand (no empty matches,
no group references in the replacement). -/
def subst (re : RE) (repl : String) (s : List Char) : List Char :=
  splice repl.data s 0 (scan (s.length + 2) re s 0)

/-! Character classes and pattern combinators for the four scrubber regexes. -/

def lit (c : Char) : RE := .char (fun d => d == c)
/-- Case-insensitive literal character (the address pattern is compiled with
`re.IGNORECASE`). -/
def litCI (c : Char) : RE := .char (fun d => d.toLower == c.toLower)
def reSeq (l : List RE) : RE := l.foldr .seq .eps
def plus (r : RE) : RE := .rep true 1 none r
def star (r : RE) : RE := .rep true 0 none r
def starLazy (r : RE) : RE := .rep false 0 none r
def opt (r : RE) : RE := .rep true 0 (some 1) r
def repRange (lo hi : Nat) (r : RE) : RE := .rep true lo (some hi) r
def repAtLeast (lo : Nat) (r : RE) : RE := .rep true lo none r
def strCI (w : String) : RE := reSeq (w.data.map litCI)

def digitCls : RE := .char Char.isDigit
def alphaCls : RE := .char Char.isAlpha
/-- Python `\s` on ASCII text: space, tab, newline, carriage return, form
feed, vertical tab. -/
def wsCls : RE := .char (fun c => [' ', '\t', '\n', '\r', '\x0b', '\x0c'].contains c)

/-- `[A-Za-z0-9._%+-]` -/
def emailLocalCls : RE :=
  .char (fun c => c.isAlpha || c.isDigit || ['.', '_', '%', '+', '-'].contains c)
/-- `[A-Za-z0-9.-]` -/
def emailDomainCls : RE :=
  .char (fun c => c.isAlpha || c.isDigit || ['.', '-'].contains c)
/-- `[A-Z|a-z]` — note this class literally contains `'|'`. -/
def tldCls : RE := .char (fun c => c.isAlpha || c = '|')

/-- `\b[A-Za-z0-9._%+-]+@[A-Za-z0-9.-]+\.[A-Z|a-z]{2,}\b` -/
def email_pattern : RE :=
  reSeq [.wordB, plus emailLocalCls, lit '@', plus emailDomainCls, lit '.',
    repAtLeast 2 tldCls, .wordB]

/-- `\b(?:\d[ -]*?){13,16}\b` -/
def credit_card_pattern : RE :=
  reSeq [.wordB,
    .rep true 13 (some 16) (reSeq [digitCls, starLazy (.char (fun c => c = ' ' || c = '-'))]),
    .wordB]

/-- `\b(?:\+?(\d{1,3}))?[-. (]*(\d{3})[-. )]*(\d{3})[-. ]*(\d{4})(?: *x(\d+))?\b` -/
def phone_pattern : RE :=
  reSeq [.wordB,
    opt (reSeq [opt (lit '+'), repRange 1 3 digitCls]),
    star (.char (fun c => ['-', '.', ' ', '('].contains c)),
    repRange 3 3 digitCls,
    star (.char (fun c => ['-', '.', ' ', ')'].contains c)),
    repRange 3 3 digitCls,
    star (.char (fun c => ['-', '.', ' '].contains c)),
    repRange 4 4 digitCls,
    opt (reSeq [star (lit ' '), lit 'x', plus digitCls]),
    .wordB]

/-- The street-type alternation of the address pattern, in source order
(leftmost alternative preferred). -/
def streetTypes : RE :=
  [strCI "Street", strCI "St", strCI "Avenue", strCI "Ave", strCI "Road", strCI "Rd",
   strCI "Highway", strCI "Hwy", strCI "Square", strCI "Sq", strCI "Trail", strCI "Trl",
   strCI "Drive", strCI "Dr", strCI "Court", strCI "Ct", strCI "Parkway", strCI "Pkwy",
   strCI "Circle", strCI "Cir", strCI "Boulevard", strCI "Blvd"].foldr .alt (.char (fun _ => false))

/-- `\d+\s+([a-zA-Z]+|[a-zA-Z]+\s[a-zA-Z]+)\s+(Street|St|...|Blvd)\b`,
compiled with `re.IGNORECASE`. -/
def address_pattern : RE :=
  reSeq [plus digitCls, plus wsCls,
    .alt (plus alphaCls) (reSeq [plus alphaCls, wsCls, plus alphaCls]),
    plus wsCls, streetTypes, .wordB]

/-- `PIIService.scrub`: the four substitutions applied in source order; empty
input short-circuits to the empty string (`if not text: return ""`). -/
def scrub (text : String) : String :=
  if text = "" then ""
  else
    String.mk
      (subst address_pattern "[ADDRESS_REDACTED]"
        (subst phone_pattern "[PHONE_REDACTED]"
          (subst credit_card_pattern "[CREDIT_CARD_REDACTED]"
            (subst email_pattern "[EMAIL_REDACTED]" text.data))))

/-! ### Generic string helpers -/

/-- Python's `needle in hay` substring test. -/
def listContains (needle hay : List Char) : Bool :=
  hay.tails.any (fun t => needle.isPrefixOf t)

def strContainsSub (hay needle : String) : Bool := listContains needle.data hay.data

/-- Deduplication keeping the first appearance of each element, in order:
the reading of "deduplicated, order-preserving by first appearance" in the
spec (this is a spec-side definition used to compare against the code's
`list(set(...))`). -/
def dedupFirstAux (seen : List String) : List String → List String
  | [] => []
  | x :: xs =>
    if seen.contains x then dedupFirstAux seen xs
    else x :: dedupFirstAux (x :: seen) xs

def dedupFirst (l : List String) : List String := dedupFirstAux [] l

/-- The behaviour of Python's `list(set(l))` for a list of strings: each
distinct element of `l` appears exactly once, in an unspecified (hash-table)
order.  CPython string hashing is randomized per process, so no particular
order may be assumed; any function satisfying this predicate is a possible
behaviour. -/
def PySetList (f : List String → List String) : Prop :=
  ∀ l, (f l).Nodup ∧ ∀ x, x ∈ f l ↔ x ∈ l

/-! ### `backend/services/reasoning_engine.py` — `ReasoningEngine`

We model the part of `generate_response` that runs after
`asyncio.gather`: recency weighting, re-sort, top-3 truncation, max raw
score, context/reference extraction, and the `try`-guarded model call.
The language-model invocation plus JSON parsing is an external effect and
is modelled as an `Except String ParsedResp` environment value (`.error e`
is an exception with message `e`; a parse result that is not a dict also
surfaces as an exception at the first attribute access inside the same
`try`).  Similarity scores are rationals. -/

structure DocMeta where
  unix_timestamp : Option Int
  source_id : Option String
  source_url : Option String
deriving DecidableEq

/-- A LangChain `Document` as used by `similarity_search_with_score`. -/
structure Doc where
  page_content : String
  metadata : DocMeta
deriving DecidableEq

/-- The parsed model output: a JSON dict that may be missing keys
(`ReasoningOutput` is only used for format instructions; `JsonOutputParser`
does not enforce the schema). -/
structure ParsedResp where
  suggested_draft : Option String
  confidence_score : Option ℚ
  source_references : Option (List String)
deriving DecidableEq

namespace ReasoningEngine

def day_seconds : Int := 86400
def ninety_days : Int := 90 * day_seconds

/-- Lines 110–114: per-document boost; a missing `unix_timestamp` defaults
to `0` via `doc.metadata.get('unix_timestamp', 0)`. -/
def boostFactor (current_time : Int) (d : Doc) : ℚ :=
  let doc_timestamp : Int := d.metadata.unix_timestamp.getD 0
  let age := current_time - doc_timestamp
  if age < ninety_days then 11/10 else 1

/-- Lines 108–116: `refined_results` — each `(doc, score)` becomes
`(doc, score, score * boost)`. -/
def refined_results (current_time : Int) (search_results : List (Doc × ℚ)) :
    List (Doc × ℚ × ℚ) :=
  search_results.map (fun p => (p.1, p.2, p.2 * boostFactor current_time p.1))

/-- Line 119: `refined_results.sort(key=lambda x: x[2], reverse=True)` —
a stable descending sort on the boosted score. -/
def sortByBoosted (l : List (Doc × ℚ × ℚ)) : List (Doc × ℚ × ℚ) :=
  l.mergeSort (fun a b => decide (b.2.2 ≤ a.2.2))

/-- Lines 108–122: guard `if search_results:` then sort and slice `[:3]`. -/
def top_3 (current_time : Int) (search_results : List (Doc × ℚ)) :
    List (Doc × ℚ × ℚ) :=
  if search_results.isEmpty then []
  else (sortByBoosted (refined_results current_time search_results)).take 3

/-- Lines 103, 125–127: `max_score` starts at `0.0` and is bumped by each
retained raw score that exceeds it. -/
def max_score (current_time : Int) (search_results : List (Doc × ℚ)) : ℚ :=
  (top_3 current_time search_results).foldl
    (fun m t => if t.2.1 > m then t.2.1 else m) 0

/-- Lines 129–131: context lines `"Ticket #{ticket_id}: {page_content}"`. -/
def context_texts (current_time : Int) (search_results : List (Doc × ℚ)) :
    List String :=
  (top_3 current_time search_results).map
    (fun t => "Ticket #" ++ t.1.metadata.source_id.getD "Unknown" ++ ": " ++ t.1.page_content)

/-- Lines 133–137: formatted references, appended per retained document. -/
def docRefs (d : Doc) : List String :=
  match d.metadata.source_url with
  | some url =>
    if d.metadata.source_id.getD "Unknown" ≠ "Unknown" then
      ["Ticket #" ++ d.metadata.source_id.getD "Unknown"]
    else [url]
  | none => []

def source_refs (current_time : Int) (search_results : List (Doc × ℚ)) :
    List String :=
  (top_3 current_time search_results).flatMap (fun t => docRefs t.1)

/-- The fixed part of the system prompt before the hallucination-control
branch (lines 33–47, verbatim). -/
def promptHead : String :=
  "You are a highly capable Logic Engine for a B2B SaaS Support system.\n        \n        Your Goal: specific, accurate, and policy-compliant support drafts.\n        \n        Constraints:\n        1. NEVER invent policies. Only use the provided context.\n        2. If the context is missing or insufficient, state \"UNCERTAIN\" as per instructions.\n        3. Use a professional, empathetic tone.\n        \n        Input Context:\n        - Past Tickets (Context): Similar issues resolved from the knowledge base.\n        - Customer Order Status: Real-time data from BigCommerce.\n        \n        Hallucination Control:\n        "

/-- The low-confidence branch (lines 49–52, verbatim). -/
def promptLowBranch : String :=
  "\n            - The similarity score of the best match is LOW (< 0.35).\n            - You MUST start your \x27suggested_draft\x27 with: \"UNCERTAIN: I found related info but check these sources first.\"\n            "

/-- The high-confidence branch (lines 54–56, verbatim). -/
def promptHighBranch : String :=
  "\n            - Use the high confidence context to draft a clear response.\n            "

/-- The trailing JSON instruction (lines 58–60, verbatim). -/
def promptTail : String :=
  "\n        Return ONLY valid JSON with keys: suggested_draft, confidence_score, and source_references.\n        "

/-- `ReasoningEngine._get_system_prompt` (lines 32–61). -/
def get_system_prompt (ms : ℚ) : String :=
  promptHead ++ (if ms < 7/20 then promptLowBranch else promptHighBranch) ++ promptTail

/-- The instruction that forces the draft to open with the uncertainty
marker. -/
def uncertaintyInstr : String :=
  "You MUST start your \x27suggested_draft\x27 with: \"UNCERTAIN: I found related info but check these sources first.\""

/-- Lines 160–174 of `generate_response`: the `try`-guarded model call,
source-reference backfill via `list(set(source_refs))`, and the exception
handler producing the fixed zero-confidence result.  `pySet` is the
process's `list(set(·))` behaviour, `llm` the model-invocation/parsing
outcome. -/
def generate_response (pySet : List String → List String) (current_time : Int)
    (search_results : List (Doc × ℚ)) (llm : Except String ParsedResp) :
    ParsedResp :=
  let refs := source_refs current_time search_results
  match llm with
  | .error e =>
    { suggested_draft := some ("Error generating response: " ++ e)
      confidence_score := some 0
      source_references := some [] }
  | .ok response =>
    if (response.source_references.getD []).isEmpty && !refs.isEmpty then
      { response with source_references := some (pySet refs) }
    else response

end ReasoningEngine

/-! ### `backend/services/vector_store.py` — `VectorService.embed_and_store`

The embedding provider and Pinecone are external; their behaviour is an
explicit environment: `embedBeh b a` is what `embed_documents` does on
attempt `a` for batch `b` (returns vectors or raises with a message), and
`upsertErr b` is the exception message of the batch-`b` upsert, if any.
`uuid b j` models `uuid.uuid4()` for item `j` of batch `b`.  The model
instruments the run with the number of provider calls and the rate-limit
sleep durations, which the claims are about. -/

inductive EmbedTry where
  | ok (vectors : List (List ℚ))
  | err (msg : String)

/-- Only the metadata key the ingestion path inspects; remaining keys are
carried through unchanged and are irrelevant to the claims. -/
structure IngestMeta where
  source_id : Option String
deriving DecidableEq

/-- One vector as upserted to Pinecone (metadata keys the code writes). -/
structure StoredVec where
  id : String
  values : List ℚ
  meta_source_id : Option String
  meta_text : String
  meta_unix_timestamp : Int
  ns : String
deriving DecidableEq

structure IngestEnv where
  embedBeh : Nat → Nat → EmbedTry
  upsertErr : Nat → Option String
  uuid : Nat → Nat → String

structure IngestResult where
  calls : Nat              -- number of `embed_documents` invocations
  rlSleeps : List ℚ        -- rate-limit backoff sleeps, in order
  stored : List StoredVec  -- successfully upserted items, in order
  skipped : List Nat       -- batch indices skipped after embedding failure
  error : Option String    -- exception propagated out of `embed_and_store`

namespace VectorService

/-- Line 86: `"429" in str(e) or "RateLimit" in str(e)`. -/
def isRateLimitMsg (e : String) : Bool :=
  strContainsSub e "429" || strContainsSub e "RateLimit"

structure RetryRes where
  result : Except String (List (List ℚ))  -- `.error e`: the loop re-raised `e`
  sleeps : List ℚ
  calls : Nat

/-- Lines 79–92: the retry loop.  `a` is the current value of `attempt`,
the second argument the number of loop iterations left (starting at
`max_retries = 5`).  Falling out of the loop leaves `embeddings = []`
(`.ok []`); a non-rate-limit error is re-raised (`.error`). -/
def runRetry (beh : Nat → EmbedTry) : Nat → Nat → RetryRes
  | _, 0 => ⟨.ok [], [], 0⟩
  | a, r + 1 =>
    match beh a with
    | .ok vs => ⟨.ok vs, [], 1⟩
    | .err e =>
      if isRateLimitMsg e then
        let rr := runRetry beh (a + 1) r
        ⟨rr.result, ((2 : ℚ) ^ a * 5) :: rr.sleeps, rr.calls + 1⟩
      else ⟨.error e, [], 1⟩

def max_retries : Nat := 5
def batch_size : Nat := 10

/-- `for i in range(0, len(texts), batch_size)` slicing, fuel-based so that
it reduces in the kernel. -/
def chunksF (n : Nat) : Nat → List α → List (List α)
  | 0, _ => []
  | _, [] => []
  | fuel + 1, x :: xs => (x :: xs.take (n - 1)) :: chunksF n fuel (xs.drop (n - 1))

def chunks (n : Nat) (l : List α) : List (List α) := chunksF n l.length l

/-- Lines 98–114: build the vectors of one batch.  The item id is
`str(full_metadata.get('source_id', uuid.uuid4()))`. -/
def buildVectors (env : IngestEnv) (current_time : Int) (ns : String) (bi : Nat)
    (bt : List String) (bm : List IngestMeta) (embs : List (List ℚ)) :
    List StoredVec :=
  ((bt.zip (bm.zip embs)).mapIdx (fun j p =>
    { id := match p.2.1.source_id with | some s => s | none => env.uuid bi j
      values := p.2.2
      meta_source_id := p.2.1.source_id
      meta_text := p.1
      meta_unix_timestamp := current_time
      ns := ns }))

/-- Lines 74–124: the per-batch loop.  A re-raised embedding error aborts
the whole call (nothing after it runs); an empty `embeddings` skips the
batch; an upsert error is logged and processing continues. -/
def processBatches (env : IngestEnv) (current_time : Int) (ns : String) :
    Nat → List (List String × List IngestMeta) → IngestResult
  | _, [] => ⟨0, [], [], [], none⟩
  | bi, (bt, bm) :: rest =>
    match runRetry (env.embedBeh bi) 0 max_retries with
    | ⟨.error e, ss, c⟩ => ⟨c, ss, [], [], some e⟩
    | ⟨.ok embs, ss, c⟩ =>
      if embs.isEmpty then
        ⟨c + (processBatches env current_time ns (bi + 1) rest).calls,
         ss ++ (processBatches env current_time ns (bi + 1) rest).rlSleeps,
         (processBatches env current_time ns (bi + 1) rest).stored,
         bi :: (processBatches env current_time ns (bi + 1) rest).skipped,
         (processBatches env current_time ns (bi + 1) rest).error⟩
      else
        match env.upsertErr bi with
        | some _ =>
          ⟨c + (processBatches env current_time ns (bi + 1) rest).calls,
           ss ++ (processBatches env current_time ns (bi + 1) rest).rlSleeps,
           (processBatches env current_time ns (bi + 1) rest).stored,
           (processBatches env current_time ns (bi + 1) rest).skipped,
           (processBatches env current_time ns (bi + 1) rest).error⟩
        | none =>
          ⟨c + (processBatches env current_time ns (bi + 1) rest).calls,
           ss ++ (processBatches env current_time ns (bi + 1) rest).rlSleeps,
           buildVectors env current_time ns bi bt bm embs ++
             (processBatches env current_time ns (bi + 1) rest).stored,
           (processBatches env current_time ns (bi + 1) rest).skipped,
           (processBatches env current_time ns (bi + 1) rest).error⟩

/-- `VectorService.embed_and_store` (lines 57–124): early return on empty
input, one shared `current_time` stamp, fixed-size batching, retry with
backoff, per-batch upsert. -/
def embed_and_store (env : IngestEnv) (current_time : Int) (texts : List String)
    (metadatas : List IngestMeta) (ns : String) : IngestResult :=
  if texts.isEmpty then ⟨0, [], [], [], none⟩
  else processBatches env current_time ns 0
    ((chunks batch_size texts).zip (chunks batch_size metadatas))

end VectorService

/-! ### `backend/routers/inference.py` — `gorgias_widget`

The deadline-bounded orchestrator.  Wall-clock readings, the Gorgias fetch,
the vector search, the model call, and whether the outer
`asyncio.wait_for` cancelled `run_pipeline` are environment data.  Key
`asyncio` fact mirrored by the model: when `asyncio.wait_for` times out,
`pipeline_result` is never assigned, so the outer `search_results`
variable keeps its initial value `[]`.  The model also counts how many
vector-search calls the request issues (`searchCalls`). -/

namespace Widget

def TOTAL_BUDGET : ℚ := 9/2

/-- Python `a or b` on strings. -/
def pyOr (a b : String) : String := if a = "" then b else a

/-- Python `str.strip()` (ASCII whitespace). -/
def isPySpace (c : Char) : Bool := [' ', '\t', '\n', '\r', '\x0b', '\x0c'].contains c

def pyStrip (s : String) : String :=
  String.mk (((s.data.dropWhile isPySpace).reverse.dropWhile isPySpace).reverse)

/-- Literal (regex-free) pattern, so `str.replace` can reuse `subst`:
both scan left-to-right replacing non-overlapping occurrences. -/
def litPat (w : String) : RE := reSeq (w.data.map lit)

def pyReplace (s needle repl : String) : String :=
  String.mk (subst (litPat needle) repl s.data)

/-- Python `f"{x:.0%}"`: percentage rounded to zero decimals, banker's
rounding. -/
def roundHalfEven (q : ℚ) : Int :=
  let f : Int := ⌊q⌋
  let frac := q - f
  if frac < 1/2 then f
  else if frac > 1/2 then f + 1
  else if f % 2 = 0 then f else f + 1

def formatPercent (q : ℚ) : String := toString (roundHalfEven (q * 100)) ++ "%"

/-- Line 139: the instructional short-circuit message. -/
def instructionalText : String :=
  "⚠️ No ticket data received. Make sure the URL includes: &subject=\x7b\x7bticket.subject\x7d\x7d"

/-- Line 201: the no-result message of the timeout fallback. -/
def notReadyText : String := "🔍 Search results not ready or not found."

/-- Line 187: three-tier confidence marker. -/
def confidenceEmoji (c : ℚ) : String :=
  if c ≥ 3/5 then "🟢" else if c ≥ 7/20 then "🟡" else "🔴"

/-- Lines 183–185: the references suffix of the full tier. -/
def sourcesText (sources : List String) : String :=
  if sources.isEmpty then ""
  else "\n\n**Refs:** " ++
    String.intercalate ", " ((sources.take 3).map (fun s => pyReplace s "Ticket #" "#"))

/-- Lines 189–192: the full-tier response text. -/
def fullTierText (draft : String) (confidence : ℚ) (sources : List String) : String :=
  (("**" ++ confidenceEmoji confidence) ++ " Smart Assist** (") ++
    (formatPercent confidence ++ (")\n\n" ++ (draft ++ sourcesText sources)))

/-- Line 210: one entry of the degraded (search-only) tier. -/
def fallbackEntry (d : Doc) (score : ℚ) : String :=
  "🎫 **#" ++ d.metadata.source_id.getD "?" ++ "** (" ++ formatPercent score ++ ")\n" ++
    String.mk ((pyStrip d.page_content).data.take 200) ++ "..."

/-- Lines 203–212: filter out placeholder/short matches, keep up to 3. -/
def fallbackMatches : List (Doc × ℚ) → Nat → List String
  | [], _ => []
  | (d, score) :: rest, valid_count =>
    let content := pyStrip d.page_content
    if strContainsSub content "(No description provided)" || content.length < 50 then
      fallbackMatches rest valid_count
    else if valid_count + 1 ≥ 3 then [fallbackEntry d score]
    else fallbackEntry d score :: fallbackMatches rest (valid_count + 1)

/-- Lines 214–217: the degraded (search-only) tier. -/
def degradedText (search_results : List (Doc × ℚ)) : String :=
  "**🟡 Smart Assist (Search Results)**\n\n" ++
    String.intercalate "\n\n---\n\n" (fallbackMatches search_results 0)

/-- Lines 197–217: the `except asyncio.TimeoutError` handler, applied to
whatever the outer `search_results` variable holds when it fires. -/
def timeoutFallback (search_results : List (Doc × ℚ)) : String :=
  if search_results.isEmpty then notReadyText else degradedText search_results

/-- `ticket_data` as returned by `adapter.fetch_ticket`. -/
structure TicketData where
  excerpt : Option String
  subject : Option String
  customer_email : Option String

/-- Outcome of the 1.5s-boxed fetch: timed out, raised, or returned. -/
inductive FetchRes where
  | timeout
  | raised (e : String)
  | fetched (t : Option TicketData)

/-- The fields of the inline request payload the code reads. -/
structure RequestBody where
  message_body_text : String
  ticket_excerpt : String
  ticket_subject : String
  customer_email : Option String

structure WidgetEnv where
  ctxErr : Option String   -- `get_client_context` exception, if it raises
  subject : Option String
  customer_email : Option String
  ticket_id : Option String
  request_body : Option RequestBody
  hasFetch : Bool          -- `hasattr(adapter, 'fetch_ticket')`
  fetch : FetchRes
  elapsedAtCore : ℚ        -- `time.time() - start_time` at line 145
  searchRes : Except String (List (Doc × ℚ))  -- vector search outcome
  elapsedAfterSearch : ℚ   -- `time.time() - start_time` at line 161
  outerTimeout : Bool      -- `asyncio.wait_for` cancelled `run_pipeline`
  now : Int                -- clock reading inside `generate_response`
  llm : Except String ParsedResp
  pySet : List String → List String

structure WidgetResp where
  text : String
  searchCalls : Nat
deriving DecidableEq

/-- Lines 101–134: input resolution (query params, inline payload, boxed
fetch).  A fetch timeout is non-fatal; any other fetch exception escapes
to the outer handler. -/
def resolveInputs (env : WidgetEnv) : Except String (String × String) :=
  let tb0 := env.subject.getD ""
  let em0 := env.customer_email.getD ""
  let p1 : String × String :=
    match env.request_body with
    | some rb =>
      if tb0 = "" then
        (pyOr rb.message_body_text (pyOr rb.ticket_excerpt rb.ticket_subject),
         if em0 = "" then rb.customer_email.getD "" else em0)
      else (tb0, em0)
    | none => (tb0, em0)
  if p1.1 = "" ∧ env.ticket_id.getD "" ≠ "" ∧ env.hasFetch then
    match env.fetch with
    | .timeout => .ok p1
    | .raised e => .error e
    | .fetched none => .ok p1
    | .fetched (some td) =>
      .ok (pyOr (td.excerpt.getD "") (td.subject.getD ""), td.customer_email.getD "")
  else .ok p1

/-- Lines 142–217: the main processing block (inner `try`).  If the outer
timeout fires — either pre-emptively (`remaining_for_core <= 1.0`) or by
cancellation of `run_pipeline` — the fallback sees `search_results = []`.
Only the `llm_skipped` path hands the pipeline's results to the
fallback. -/
def widgetCore (env : WidgetEnv) : WidgetResp :=
  let remaining_for_core := TOTAL_BUDGET - env.elapsedAtCore
  if remaining_for_core ≤ 1 then ⟨timeoutFallback [], 0⟩
  else if env.outerTimeout then ⟨timeoutFallback [], 1⟩
  else
    match env.searchRes with
    | .error e => ⟨"⚠️ Error: " ++ e, 1⟩
    | .ok results =>
      if env.elapsedAfterSearch > 3 then ⟨timeoutFallback results, 1⟩
      else
        let result := ReasoningEngine.generate_response env.pySet env.now results env.llm
        match result.suggested_draft with
        | none => ⟨"⚠️ Error: \x27suggested_draft\x27", 1⟩
        | some draft =>
          ⟨fullTierText draft (result.confidence_score.getD 0)
            (result.source_references.getD []), 1⟩

/-- `gorgias_widget` (lines 87–222): resolution, instructional
short-circuit, core block, and the outer catch-all `except Exception`. -/
def gorgias_widget (env : WidgetEnv) : WidgetResp :=
  match env.ctxErr with
  | some e => ⟨"⚠️ Error: " ++ e, 0⟩
  | none =>
    match resolveInputs env with
    | .error e => ⟨"⚠️ Error: " ++ e, 0⟩
    | .ok (tb, _) =>
      if tb = "" then ⟨instructionalText, 0⟩
      else widgetCore env

end Widget

/-- The recency-boost map exactly as the claim words it (spec-side
definition, to be compared with the code's `refined_results`). -/
def specBoosted (current_time : Int) (p : Doc × ℚ) : Doc × ℚ × ℚ :=
  (p.1, p.2,
    p.2 * (if current_time - (p.1.metadata.unix_timestamp.getD 0) < 90 * 86400 then 11/10 else 1))

/-- The five response tiers of the widget endpoint: instructional
short-circuit, no-result message, full answer (one of the three confidence
markers), search-only fallback, and catch-all error message. -/
def IsTierText (t : String) : Prop :=
  t = Widget.instructionalText ∨ t = Widget.notReadyText ∨
  (∃ r, t = "**🟢 Smart Assist** (" ++ r) ∨
  (∃ r, t = "**🟡 Smart Assist** (" ++ r) ∨
  (∃ r, t = "**🔴 Smart Assist** (" ++ r) ∨
  (∃ r, t = "**🟡 Smart Assist (Search Results)**\n\n" ++ r) ∨
  (∃ r, t = "⚠️ Error: " ++ r)

/-! ## Theorems -/

/-! ### Helper lemmas -/

theorem foldl_bump_mem (l : List ℚ) : ∀ a : ℚ,
    l.foldl (fun m x => if x > m then x else m) a ∈ a :: l := by
  induction l with
  | nil => intro a; simp
  | cons x xs ih =>
    intro a
    simp only [List.foldl_cons]
    rcases List.mem_cons.mp (ih (if x > a then x else a)) with h1 | h1
    · by_cases hc : x > a
      · rw [if_pos hc] at h1 ⊢
        rw [h1]
        exact List.mem_cons_of_mem _ (List.mem_cons_self _ _)
      · rw [if_neg hc] at h1 ⊢
        rw [h1]
        exact List.mem_cons_self _ _
    · exact List.mem_cons_of_mem _ (List.mem_cons_of_mem _ h1)

theorem foldl_bump_ub (l : List ℚ) : ∀ a y : ℚ, y ∈ a :: l →
    y ≤ l.foldl (fun m x => if x > m then x else m) a := by
  induction l with
  | nil => intro a y hy; simp at hy; simp [hy]
  | cons x xs ih =>
    intro a y hy
    simp only [List.foldl_cons]
    have hinit : (if x > a then x else a) ≤
        xs.foldl (fun m x => if x > m then x else m) (if x > a then x else a) :=
      ih _ _ (List.mem_cons_self _ _)
    rcases List.mem_cons.mp hy with rfl | hy1
    · refine le_trans ?_ hinit
      by_cases hc : x > y
      · rw [if_pos hc]; exact le_of_lt hc
      · rw [if_neg hc]
    · rcases List.mem_cons.mp hy1 with rfl | hy2
      · refine le_trans ?_ hinit
        by_cases hc : y > a
        · rw [if_pos hc]
        · rw [if_neg hc]; exact le_of_not_lt hc
      · exact ih _ _ (List.mem_cons_of_mem _ hy2)

/-- `max_score` is the bump-fold of the raw scores of the retained top 3. -/
theorem max_score_eq_fold (ct : Int) (sr : List (Doc × ℚ)) :
    ReasoningEngine.max_score ct sr =
      ((ReasoningEngine.top_3 ct sr).map (fun t => t.2.1)).foldl
        (fun m x => if x > m then x else m) 0 := by
  rw [List.foldl_map]
  rfl

theorem top_3_ne_nil (ct : Int) (sr : List (Doc × ℚ)) (h : sr ≠ []) :
    ReasoningEngine.top_3 ct sr ≠ [] := by
  unfold ReasoningEngine.top_3
  rw [if_neg (by simpa using h)]
  intro hc
  have hlen := congrArg List.length hc
  rw [List.length_take] at hlen
  have hperm := List.Perm.length_eq (List.mergeSort_perm
    (ReasoningEngine.refined_results ct sr) (fun a b => decide (b.2.2 ≤ a.2.2)))
  simp only [ReasoningEngine.sortByBoosted] at hlen ⊢
  rw [hperm] at hlen
  simp only [ReasoningEngine.refined_results, List.length_map, List.length_nil] at hlen
  rcases sr with _ | ⟨p, rest⟩
  · exact h rfl
  · simp at hlen

/-- Every retained top-3 entry is a boosted copy of an input match. -/
theorem top_3_mem (ct : Int) (sr : List (Doc × ℚ)) (t : Doc × ℚ × ℚ)
    (ht : t ∈ ReasoningEngine.top_3 ct sr) : (t.1, t.2.1) ∈ sr := by
  unfold ReasoningEngine.top_3 at ht
  by_cases he : sr.isEmpty
  · rw [if_pos he] at ht; simp at ht
  · rw [if_neg he] at ht
    have h2 : t ∈ ReasoningEngine.sortByBoosted (ReasoningEngine.refined_results ct sr) :=
      (List.take_sublist _ _).mem ht
    have h3 : t ∈ ReasoningEngine.refined_results ct sr :=
      (List.mergeSort_perm _ _).mem_iff.mp h2
    simp only [ReasoningEngine.refined_results, List.mem_map] at h3
    rcases h3 with ⟨p, hp, rfl⟩
    simpa using hp

/-- The low-confidence branch of the system prompt carries the uncertainty
instruction. -/
theorem gate_low :
    strContainsSub
      (ReasoningEngine.promptHead ++ ReasoningEngine.promptLowBranch ++ ReasoningEngine.promptTail)
      ReasoningEngine.uncertaintyInstr = true := by decide

/-- The high-confidence branch of the system prompt does not carry the
uncertainty instruction. -/
theorem gate_high :
    strContainsSub
      (ReasoningEngine.promptHead ++ ReasoningEngine.promptHighBranch ++ ReasoningEngine.promptTail)
      ReasoningEngine.uncertaintyInstr = false := by decide

/-! ### C2 -/

/-- C2: for every synthesis call (nonempty matches, scores in `[0,1]` so in
particular nonnegative), the confidence-gate input `max_score` is the
maximum raw (unboosted) similarity score among the retained top-3 matches,
and the system instruction contains the explicit uncertainty-marker
requirement exactly when that score is below `0.35`. -/
theorem c2_confidence_gate (current_time : Int) (sr : List (Doc × ℚ))
    (h1 : sr ≠ []) (h2 : ∀ p ∈ sr, 0 ≤ p.2) :
    (ReasoningEngine.max_score current_time sr ∈
        (ReasoningEngine.top_3 current_time sr).map (fun t => t.2.1)
      ∧ ∀ r ∈ (ReasoningEngine.top_3 current_time sr).map (fun t => t.2.1),
          r ≤ ReasoningEngine.max_score current_time sr)
    ∧ strContainsSub
        (ReasoningEngine.get_system_prompt (ReasoningEngine.max_score current_time sr))
        ReasoningEngine.uncertaintyInstr
      = decide (ReasoningEngine.max_score current_time sr < 7/20) := by
  set raws := (ReasoningEngine.top_3 current_time sr).map (fun t => t.2.1) with hraws
  have hfold := max_score_eq_fold current_time sr
  have hne : raws ≠ [] := by
    intro hc
    exact top_3_ne_nil current_time sr h1 (List.map_eq_nil_iff.mp (hraws ▸ hc))
  have hnn : ∀ r ∈ raws, 0 ≤ r := by
    intro r hr
    rcases List.mem_map.mp (hraws ▸ hr) with ⟨t, ht, rfl⟩
    exact h2 _ (top_3_mem current_time sr t ht)
  have hub : ∀ r ∈ raws, r ≤ ReasoningEngine.max_score current_time sr := by
    intro r hr
    rw [hfold]
    exact foldl_bump_ub raws 0 r (List.mem_cons_of_mem _ hr)
  have hmem : ReasoningEngine.max_score current_time sr ∈ raws := by
    rcases List.mem_cons.mp (hfold ▸ foldl_bump_mem raws 0) with h0 | hm
    · rcases List.exists_mem_of_ne_nil raws hne with ⟨r, hr⟩
      have : r = ReasoningEngine.max_score current_time sr :=
        le_antisymm (hub r hr) (h0 ▸ hnn r hr)
      rwa [← this]
    · exact hm
  refine ⟨⟨hmem, hub⟩, ?_⟩
  by_cases h : ReasoningEngine.max_score current_time sr < 7/20
  · simp only [ReasoningEngine.get_system_prompt, if_pos h]
    rw [gate_low]
    simp [h]
  · simp only [ReasoningEngine.get_system_prompt, if_neg h]
    rw [gate_high]
    simp [h]

unseal Rat.mul Rat.inv in
/-- C2 witness: a single retained match with raw score `1/5 < 0.35`. -/
theorem c2_confidence_gate_witness :
    (ReasoningEngine.max_score 7776000 [(⟨"past ticket", ⟨some 0, some "7", none⟩⟩, 1/5)] ∈
        (ReasoningEngine.top_3 7776000 [(⟨"past ticket", ⟨some 0, some "7", none⟩⟩, 1/5)]).map
          (fun t => t.2.1)
      ∧ ∀ r ∈ (ReasoningEngine.top_3 7776000 [(⟨"past ticket", ⟨some 0, some "7", none⟩⟩, 1/5)]).map
            (fun t => t.2.1),
          r ≤ ReasoningEngine.max_score 7776000 [(⟨"past ticket", ⟨some 0, some "7", none⟩⟩, 1/5)])
    ∧ strContainsSub
        (ReasoningEngine.get_system_prompt
          (ReasoningEngine.max_score 7776000 [(⟨"past ticket", ⟨some 0, some "7", none⟩⟩, 1/5)]))
        ReasoningEngine.uncertaintyInstr
      = decide (ReasoningEngine.max_score 7776000 [(⟨"past ticket", ⟨some 0, some "7", none⟩⟩, 1/5)]
          < 7/20) :=
  c2_confidence_gate 7776000 [(⟨"past ticket", ⟨some 0, some "7", none⟩⟩, 1/5)]
    (List.cons_ne_nil _ _) (by decide)

/-! ### C3 -/

/-- C3: every match younger than 90 days gets its raw score multiplied by
`1.10`, every other match by `1.0`; the matches are re-sorted descending by
boosted score and truncated to the top 3. -/
theorem c3_recency_rerank_truncate (current_time : Int) (sr : List (Doc × ℚ)) :
    ReasoningEngine.refined_results current_time sr = sr.map (specBoosted current_time)
    ∧ (ReasoningEngine.sortByBoosted (ReasoningEngine.refined_results current_time sr)).Perm
        (ReasoningEngine.refined_results current_time sr)
    ∧ (ReasoningEngine.sortByBoosted (ReasoningEngine.refined_results current_time sr)).Sorted
        (fun a b => a.2.2 ≥ b.2.2)
    ∧ (sr ≠ [] → ReasoningEngine.top_3 current_time sr =
        (ReasoningEngine.sortByBoosted (ReasoningEngine.refined_results current_time sr)).take 3)
    ∧ (ReasoningEngine.top_3 current_time sr).length ≤ 3 := by
  refine ⟨rfl, List.mergeSort_perm _ _, ?_, ?_, ?_⟩
  · have h := @List.sorted_mergeSort (Doc × ℚ × ℚ)
      (fun a b => decide (b.2.2 ≤ a.2.2))
      (fun a b c hab hbc => by
        simp only [decide_eq_true_eq] at *
        exact le_trans hbc hab)
      (fun a b => by
        simp only [Bool.or_eq_true, decide_eq_true_eq]
        exact le_total b.2.2 a.2.2)
      (ReasoningEngine.refined_results current_time sr)
    simpa [List.Sorted, ReasoningEngine.sortByBoosted] using h
  · intro h
    unfold ReasoningEngine.top_3
    rw [if_neg (by simpa using h)]
  · unfold ReasoningEngine.top_3
    by_cases he : sr.isEmpty
    · rw [if_pos he]; simp
    · rw [if_neg he]
      exact List.length_take_le 3 _

/-! ### C5 -/

theorem dedupFirstAux_mem : ∀ (l seen : List String) (x : String),
    x ∈ dedupFirstAux seen l ↔ x ∈ l ∧ x ∉ seen := by
  intro l
  induction l with
  | nil => intro seen x; simp [dedupFirstAux]
  | cons y ys ih =>
    intro seen x
    unfold dedupFirstAux
    simp only [List.contains, List.elem_eq_mem]
    by_cases hy : y ∈ seen
    · rw [if_pos (by simpa using hy), ih]
      constructor
      · rintro ⟨hx, hns⟩
        exact ⟨List.mem_cons_of_mem _ hx, hns⟩
      · rintro ⟨hx, hns⟩
        rcases List.mem_cons.mp hx with rfl | hx2
        · exact absurd hy hns
        · exact ⟨hx2, hns⟩
    · rw [if_neg (by simpa using hy)]
      constructor
      · intro hm
        rcases List.mem_cons.mp hm with rfl | hm2
        · exact ⟨List.mem_cons_self _ _, hy⟩
        · rcases (ih (y :: seen) x).mp hm2 with ⟨hxy, hns⟩
          exact ⟨List.mem_cons_of_mem _ hxy, fun hc => hns (List.mem_cons_of_mem _ hc)⟩
      · rintro ⟨hm, hns⟩
        rcases List.mem_cons.mp hm with rfl | hm2
        · exact List.mem_cons_self _ _
        · by_cases hxy : x = y
          · exact hxy ▸ List.mem_cons_self _ _
          · exact List.mem_cons_of_mem _ ((ih (y :: seen) x).mpr
              ⟨hm2, fun hc => (List.mem_cons.mp hc).elim hxy hns⟩)

theorem dedupFirstAux_nodup : ∀ (l seen : List String), (dedupFirstAux seen l).Nodup := by
  intro l
  induction l with
  | nil => intro seen; simp [dedupFirstAux]
  | cons y ys ih =>
    intro seen
    unfold dedupFirstAux
    simp only [List.contains, List.elem_eq_mem]
    by_cases hy : y ∈ seen
    · rw [if_pos (by simpa using hy)]; exact ih seen
    · rw [if_neg (by simpa using hy)]
      refine List.nodup_cons.mpr ⟨fun hc => ?_, ih (y :: seen)⟩
      exact ((dedupFirstAux_mem ys (y :: seen) y).mp hc).2 (List.mem_cons_self _ _)

/-- First-appearance deduplication is one possible `list(set(·))`
behaviour. -/
theorem pySetList_dedupFirst : PySetList dedupFirst := by
  intro l
  refine ⟨dedupFirstAux_nodup l [], fun x => ?_⟩
  rw [dedupFirst, dedupFirstAux_mem]
  simp

/-- The reversal of first-appearance deduplication is also a possible
`list(set(·))` behaviour (set iteration order is unspecified). -/
theorem pySetList_dedupFirst_rev : PySetList (fun l => (dedupFirst l).reverse) := by
  intro l
  refine ⟨List.nodup_reverse.mpr (dedupFirstAux_nodup l []), fun x => ?_⟩
  rw [List.mem_reverse, dedupFirst, dedupFirstAux_mem]
  simp

unseal Rat.mul Rat.inv List.merge List.mergeSort in
/-- C5 counterexample: the claim demands the backfilled references equal the
first-appearance deduplication `["Ticket #2", "Ticket #1"]`, but the code
computes `list(set(source_refs))`, whose unspecified iteration order also
admits `["Ticket #1", "Ticket #2"]`; so the claim fails on a valid
`list(set(·))` behaviour at this concrete input. -/
theorem c5_counterexample :
    ¬ ∀ f, PySetList f →
      (ReasoningEngine.generate_response f 7776000
          [(⟨"ticket two content", ⟨some 0, some "2", some "u2"⟩⟩, 1),
           (⟨"ticket one content", ⟨some 0, some "1", some "u1"⟩⟩, 0)]
          (.ok ⟨some "draft", some 1, some []⟩)).source_references
        = some (dedupFirst (ReasoningEngine.source_refs 7776000
            [(⟨"ticket two content", ⟨some 0, some "2", some "u2"⟩⟩, 1),
             (⟨"ticket one content", ⟨some 0, some "1", some "u1"⟩⟩, 0)])) := by
  intro h
  exact absurd (h (fun l => (dedupFirst l).reverse) pySetList_dedupFirst_rev) (by decide)

/-- C5 (amended): when the parsed output has empty (or missing) source
references and the retriever supplied reference strings, the synthesizer
backfills them with `list(set(source_refs))` — deduplicated (each distinct
reference exactly once, exactly the references the retriever supplied) but
in unspecified set-iteration order, not necessarily order of first
appearance. -/
theorem c5_backfill_amended (f : List String → List String) (hf : PySetList f)
    (current_time : Int) (sr : List (Doc × ℚ)) (resp : ParsedResp)
    (hempty : (resp.source_references.getD []).isEmpty = true)
    (hrefs : ReasoningEngine.source_refs current_time sr ≠ []) :
    (ReasoningEngine.generate_response f current_time sr (.ok resp)).source_references
      = some (f (ReasoningEngine.source_refs current_time sr))
    ∧ (f (ReasoningEngine.source_refs current_time sr)).Nodup
    ∧ ∀ x, x ∈ f (ReasoningEngine.source_refs current_time sr) ↔
        x ∈ ReasoningEngine.source_refs current_time sr := by
  have hcond : ((resp.source_references.getD []).isEmpty
      && !(ReasoningEngine.source_refs current_time sr).isEmpty) = true := by
    rw [hempty]
    simpa using hrefs
  have hstep : ReasoningEngine.generate_response f current_time sr (.ok resp)
      = if ((resp.source_references.getD []).isEmpty
            && !(ReasoningEngine.source_refs current_time sr).isEmpty)
        then ⟨resp.suggested_draft, resp.confidence_score,
              some (f (ReasoningEngine.source_refs current_time sr))⟩
        else resp := rfl
  refine ⟨?_, (hf _).1, (hf _).2⟩
  rw [hstep, if_pos hcond]

unseal Rat.mul Rat.inv List.merge List.mergeSort in
/-- C5 witness: first-appearance deduplication as the set order, two
referenced matches, an empty parsed reference list. -/
theorem c5_backfill_amended_witness :
    (ReasoningEngine.generate_response dedupFirst 7776000
        [(⟨"ticket two content", ⟨some 0, some "2", some "u2"⟩⟩, 1),
         (⟨"ticket one content", ⟨some 0, some "1", some "u1"⟩⟩, 0)]
        (.ok ⟨some "draft", some 1, some []⟩)).source_references
      = some (dedupFirst (ReasoningEngine.source_refs 7776000
          [(⟨"ticket two content", ⟨some 0, some "2", some "u2"⟩⟩, 1),
           (⟨"ticket one content", ⟨some 0, some "1", some "u1"⟩⟩, 0)]))
    ∧ (dedupFirst (ReasoningEngine.source_refs 7776000
        [(⟨"ticket two content", ⟨some 0, some "2", some "u2"⟩⟩, 1),
         (⟨"ticket one content", ⟨some 0, some "1", some "u1"⟩⟩, 0)])).Nodup
    ∧ ∀ x, x ∈ dedupFirst (ReasoningEngine.source_refs 7776000
          [(⟨"ticket two content", ⟨some 0, some "2", some "u2"⟩⟩, 1),
           (⟨"ticket one content", ⟨some 0, some "1", some "u1"⟩⟩, 0)]) ↔
        x ∈ ReasoningEngine.source_refs 7776000
          [(⟨"ticket two content", ⟨some 0, some "2", some "u2"⟩⟩, 1),
           (⟨"ticket one content", ⟨some 0, some "1", some "u1"⟩⟩, 0)] :=
  c5_backfill_amended dedupFirst pySetList_dedupFirst 7776000
    [(⟨"ticket two content", ⟨some 0, some "2", some "u2"⟩⟩, 1),
     (⟨"ticket one content", ⟨some 0, some "1", some "u1"⟩⟩, 0)]
    ⟨some "draft", some 1, some []⟩ rfl (by decide)

/-! ### C6 -/

/-- C6: any exception raised during model invocation or output parsing is
converted into the fixed well-formed result — draft
`"Error generating response: " ++ e`, confidence `0.0`, empty source
references — and `generate_response` never propagates the exception (it is
a total function into `ParsedResp`). -/
theorem c6_synthesis_error_boundary (pySet : List String → List String)
    (current_time : Int) (search_results : List (Doc × ℚ)) (e : String) :
    ReasoningEngine.generate_response pySet current_time search_results (.error e) =
      { suggested_draft := some ("Error generating response: " ++ e)
        confidence_score := some 0
        source_references := some [] } := rfl

/-! ### C7 — batching and timestamp stamping -/

theorem chunksF_flatten (n : Nat) : ∀ (fuel : Nat) (l : List α), l.length ≤ fuel →
    (VectorService.chunksF n fuel l).flatten = l := by
  intro fuel
  induction fuel with
  | zero =>
    intro l hl
    rw [List.length_eq_zero.mp (Nat.le_zero.mp hl)]
    rfl
  | succ m ih =>
    intro l hl
    match l with
    | [] => rfl
    | x :: xs =>
      have hdrop : (xs.drop (n - 1)).length ≤ m := by
        rw [List.length_drop]
        simp only [List.length_cons] at hl
        omega
      simp only [VectorService.chunksF, List.flatten_cons, ih _ hdrop]
      rw [List.cons_append, List.take_append_drop]

theorem chunksF_length (fuel : Nat) : ∀ (l : List α), l.length ≤ fuel →
    (VectorService.chunksF 10 fuel l).length = (l.length + 9) / 10 := by
  induction fuel with
  | zero =>
    intro l hl
    rw [List.length_eq_zero.mp (Nat.le_zero.mp hl)]
    simp [VectorService.chunksF]
  | succ m ih =>
    intro l hl
    match l with
    | [] => simp [VectorService.chunksF]
    | x :: xs =>
      have hdrop : (xs.drop 9).length ≤ m := by
        rw [List.length_drop]
        simp only [List.length_cons] at hl
        omega
      have := ih (xs.drop 9) hdrop
      simp only [VectorService.chunksF, List.length_cons, this, List.length_drop]
      omega

theorem chunks_flatten (l : List α) : (VectorService.chunks 10 l).flatten = l :=
  chunksF_flatten 10 l.length l le_rfl

theorem chunks_length (l : List α) : (VectorService.chunks 10 l).length = (l.length + 9) / 10 :=
  chunksF_length l.length l le_rfl

theorem chunksF_size (n : Nat) (hn : 1 ≤ n) : ∀ (fuel : Nat) (l : List α) (c : List α),
    c ∈ VectorService.chunksF n fuel l → c.length ≤ n ∧ c ≠ [] := by
  intro fuel
  induction fuel with
  | zero => intro l c hc; simp [VectorService.chunksF] at hc
  | succ m ih =>
    intro l c hc
    match l with
    | [] => simp [VectorService.chunksF] at hc
    | x :: xs =>
      simp only [VectorService.chunksF, List.mem_cons] at hc
      rcases hc with rfl | hc2
      · constructor
        · simp only [List.length_cons, List.length_take]
          omega
        · exact List.cons_ne_nil _ _
      · exact ih _ _ hc2

theorem buildVectors_ts (env : IngestEnv) (ct : Int) (ns : String) (bi : Nat)
    (bt : List String) (bm : List IngestMeta) (embs : List (List ℚ)) :
    ∀ v ∈ VectorService.buildVectors env ct ns bi bt bm embs,
      v.meta_unix_timestamp = ct := by
  intro v hv
  unfold VectorService.buildVectors at hv
  rw [List.mem_mapIdx] at hv
  obtain ⟨i, hi, heq⟩ := hv
  rw [← heq]

theorem processBatches_stored_ts (env : IngestEnv) (ct : Int) (ns : String) :
    ∀ (bs : List (List String × List IngestMeta)) (bi : Nat) (v : StoredVec),
      v ∈ (VectorService.processBatches env ct ns bi bs).stored →
      v.meta_unix_timestamp = ct := by
  intro bs
  induction bs with
  | nil => intro bi v hv; simp [VectorService.processBatches] at hv
  | cons b rest ih =>
    intro bi v hv
    obtain ⟨bt, bm⟩ := b
    unfold VectorService.processBatches at hv
    rcases hres : VectorService.runRetry (env.embedBeh bi) 0 VectorService.max_retries
      with ⟨e | embs, ss, c⟩
    · rw [hres] at hv
      simp at hv
    · rw [hres] at hv
      dsimp only [] at hv
      by_cases hemp : embs.isEmpty
      · rw [if_pos hemp] at hv
        exact ih (bi + 1) v hv
      · rw [if_neg hemp] at hv
        rcases hup : env.upsertErr bi with _ | er
        · rw [hup] at hv
          rcases List.mem_append.mp hv with h1 | h2
          · exact buildVectors_ts env ct ns bi bt bm embs v h1
          · exact ih (bi + 1) v h2
        · rw [hup] at hv
          exact ih (bi + 1) v hv

theorem processBatches_ok (env : IngestEnv) (ct : Int) (ns : String)
    (hok : ∀ b, ∃ vs, env.embedBeh b 0 = .ok vs) :
    ∀ (bs : List (List String × List IngestMeta)) (bi : Nat),
      (VectorService.processBatches env ct ns bi bs).calls = bs.length
      ∧ (VectorService.processBatches env ct ns bi bs).error = none := by
  intro bs
  induction bs with
  | nil => intro bi; exact ⟨rfl, rfl⟩
  | cons b rest ih =>
    intro bi
    obtain ⟨bt, bm⟩ := b
    obtain ⟨vs, hvs⟩ := hok bi
    have hrr : VectorService.runRetry (env.embedBeh bi) 0 VectorService.max_retries
        = ⟨.ok vs, [], 1⟩ := by
      show VectorService.runRetry (env.embedBeh bi) 0 5 = _
      unfold VectorService.runRetry
      rw [hvs]
    unfold VectorService.processBatches
    rw [hrr]
    dsimp only []
    by_cases hemp : vs.isEmpty
    · rw [if_pos hemp]
      simp only [List.length_cons]
      exact ⟨by rw [(ih (bi + 1)).1]; omega, (ih (bi + 1)).2⟩
    · rw [if_neg hemp]
      rcases hup : env.upsertErr bi with _ | er
      · simp only [List.length_cons]
        exact ⟨by rw [(ih (bi + 1)).1]; omega, (ih (bi + 1)).2⟩
      · simp only [List.length_cons]
        exact ⟨by rw [(ih (bi + 1)).1]; omega, (ih (bi + 1)).2⟩

/-- C7: the texts are partitioned in order into consecutive batches of
size 10 (flattening the batches gives the texts back, every batch is
nonempty of size at most 10); when no batch fails, exactly
`ceil(n/10) = (n+9)/10` embedding-provider calls are issued; and every
stored item carries the one shared ingestion timestamp. -/
theorem c7_batching_and_timestamp (env : IngestEnv) (current_time : Int)
    (texts : List String) (metadatas : List IngestMeta) (ns : String)
    (hlen : metadatas.length = texts.length)
    (hok : ∀ b, ∃ vs, env.embedBeh b 0 = .ok vs) :
    (VectorService.chunks VectorService.batch_size texts).flatten = texts
    ∧ (∀ c ∈ VectorService.chunks VectorService.batch_size texts,
        c.length ≤ VectorService.batch_size ∧ c ≠ [])
    ∧ (VectorService.embed_and_store env current_time texts metadatas ns).calls
        = (texts.length + 9) / 10
    ∧ (VectorService.embed_and_store env current_time texts metadatas ns).error = none
    ∧ ∀ v ∈ (VectorService.embed_and_store env current_time texts metadatas ns).stored,
        v.meta_unix_timestamp = current_time := by
  refine ⟨chunks_flatten texts,
    fun c hc => chunksF_size 10 (by norm_num) _ _ _ hc, ?_, ?_, ?_⟩
  · unfold VectorService.embed_and_store
    by_cases he : texts.isEmpty
    · rw [if_pos he]
      rw [List.isEmpty_iff.mp he]
      rfl
    · rw [if_neg he]
      rw [(processBatches_ok env current_time ns hok _ 0).1, List.length_zip]
      show min (VectorService.chunks 10 texts).length (VectorService.chunks 10 metadatas).length = _
      rw [chunks_length texts, chunks_length metadatas, hlen, min_self]
  · unfold VectorService.embed_and_store
    by_cases he : texts.isEmpty
    · rw [if_pos he]
    · rw [if_neg he]
      exact (processBatches_ok env current_time ns hok _ 0).2
  · unfold VectorService.embed_and_store
    by_cases he : texts.isEmpty
    · rw [if_pos he]
      intro v hv
      simp at hv
    · rw [if_neg he]
      exact fun v hv => processBatches_stored_ts env current_time ns _ 0 v hv

/-- C7 witness: 12 documents, every batch embedding succeeding first try —
exactly 2 provider calls, no error, all stored items share the stamp. -/
theorem c7_batching_and_timestamp_witness :
    (VectorService.chunks VectorService.batch_size (List.replicate 12 "doc")).flatten
        = List.replicate 12 "doc"
    ∧ (∀ c ∈ VectorService.chunks VectorService.batch_size (List.replicate 12 "doc"),
        c.length ≤ VectorService.batch_size ∧ c ≠ [])
    ∧ (VectorService.embed_and_store
        ⟨fun _ _ => .ok [[1]], fun _ => none, fun _ _ => "u"⟩ 1700000000
        (List.replicate 12 "doc") (List.replicate 12 ⟨some "s"⟩) "org_1").calls = 2
    ∧ (VectorService.embed_and_store
        ⟨fun _ _ => .ok [[1]], fun _ => none, fun _ _ => "u"⟩ 1700000000
        (List.replicate 12 "doc") (List.replicate 12 ⟨some "s"⟩) "org_1").error = none
    ∧ ∀ v ∈ (VectorService.embed_and_store
        ⟨fun _ _ => .ok [[1]], fun _ => none, fun _ _ => "u"⟩ 1700000000
        (List.replicate 12 "doc") (List.replicate 12 ⟨some "s"⟩) "org_1").stored,
        v.meta_unix_timestamp = 1700000000 :=
  c7_batching_and_timestamp ⟨fun _ _ => .ok [[1]], fun _ => none, fun _ _ => "u"⟩
    1700000000 (List.replicate 12 "doc") (List.replicate 12 ⟨some "s"⟩) "org_1"
    rfl (fun _ => ⟨[[1]], rfl⟩)

/-! ### C4 — retry backoff and batch-failure handling -/

theorem runRetry_sleeps_gen (beh : Nat → EmbedTry) :
    ∀ (r a k : Nat), k ≤ r →
      (∀ i, i < k → ∃ e, beh (a + i) = .err e ∧ VectorService.isRateLimitMsg e = true) →
      (k < r → ∃ vs, beh (a + k) = .ok vs) →
      (VectorService.runRetry beh a r).sleeps
          = (List.range k).map (fun j => (2:ℚ) ^ (a + j) * 5)
      ∧ (VectorService.runRetry beh a r).calls = min (k + 1) r := by
  intro r
  induction r with
  | zero =>
    intro a k hk _ _
    rw [Nat.le_zero.mp hk]
    exact ⟨rfl, rfl⟩
  | succ m ih =>
    intro a k hk hrl hok
    match k with
    | 0 =>
      obtain ⟨vs, hvs⟩ := hok (Nat.succ_pos m)
      rw [Nat.add_zero] at hvs
      unfold VectorService.runRetry
      rw [hvs]
      refine ⟨rfl, ?_⟩
      simp
    | k' + 1 =>
      obtain ⟨e, he, hrle⟩ := hrl 0 (Nat.succ_pos k')
      rw [Nat.add_zero] at he
      have hrec := ih (a + 1) k' (Nat.le_of_succ_le_succ hk)
        (fun i hi => by
          obtain ⟨e2, he2, hr2⟩ := hrl (i + 1) (Nat.succ_lt_succ hi)
          exact ⟨e2, by rw [← he2]; ring_nf, hr2⟩)
        (fun hlt => by
          obtain ⟨vs, hvs⟩ := hok (Nat.succ_lt_succ hlt)
          exact ⟨vs, by rw [← hvs]; ring_nf⟩)
      unfold VectorService.runRetry
      rw [he]
      dsimp only []
      rw [if_pos hrle]
      dsimp only []
      constructor
      · rw [hrec.1, List.range_succ_eq_map, List.map_cons, List.map_map]
        refine congrArg₂ List.cons ?_ ?_
        · norm_num
        · refine List.map_congr_left ?_
          intro j hj
          show (2:ℚ) ^ (a + 1 + j) * 5 = (2:ℚ) ^ (a + Nat.succ j) * 5
          rw [show a + 1 + j = a + Nat.succ j by omega]
      · rw [hrec.2]
        omega

theorem runRetry_no_fatal (beh : Nat → EmbedTry)
    (hrl : ∀ a e, beh a = .err e → VectorService.isRateLimitMsg e = true) :
    ∀ (r a : Nat), ∃ vs, (VectorService.runRetry beh a r).result = .ok vs := by
  intro r
  induction r with
  | zero => intro a; exact ⟨[], rfl⟩
  | succ m ih =>
    intro a
    unfold VectorService.runRetry
    rcases hb : beh a with vs | e
    · exact ⟨vs, rfl⟩
    · dsimp only []
      rw [if_pos (hrl a e hb)]
      exact ih (a + 1)

theorem processBatches_no_fatal (env : IngestEnv) (ct : Int) (ns : String)
    (hrl : ∀ b a e, env.embedBeh b a = .err e → VectorService.isRateLimitMsg e = true) :
    ∀ (bs : List (List String × List IngestMeta)) (bi : Nat),
      (VectorService.processBatches env ct ns bi bs).error = none := by
  intro bs
  induction bs with
  | nil => intro bi; rfl
  | cons b rest ih =>
    intro bi
    obtain ⟨bt, bm⟩ := b
    unfold VectorService.processBatches
    obtain ⟨vs, hres⟩ := runRetry_no_fatal (env.embedBeh bi) (hrl bi)
      VectorService.max_retries 0
    rcases hrr : VectorService.runRetry (env.embedBeh bi) 0 VectorService.max_retries
      with ⟨e2 | vs2, ss, c⟩
    · rw [hrr] at hres
      simp at hres
    · dsimp only []
      by_cases hemp : vs2.isEmpty
      · rw [if_pos hemp]
        exact ih (bi + 1)
      · rw [if_neg hemp]
        rcases env.upsertErr bi with _ | er
        · exact ih (bi + 1)
        · exact ih (bi + 1)

/-- The retry loop's rate-limit sleeps are the prefix of `5/10/20/40/80`
of the number of rate-limited attempts. -/
theorem runRetry_backoff_take (beh : Nat → EmbedTry) (k : Nat) (hk : k ≤ 5)
    (hrl : ∀ i, i < k → ∃ e, beh i = .err e ∧ VectorService.isRateLimitMsg e = true)
    (hok : k < 5 → ∃ vs, beh k = .ok vs) :
    (VectorService.runRetry beh 0 VectorService.max_retries).sleeps
      = ([5, 10, 20, 40, 80] : List ℚ).take k := by
  have h := runRetry_sleeps_gen beh 5 0 k hk
    (fun i hi => by simpa using hrl i hi)
    (fun hlt => by simpa using hok hlt)
  rw [show VectorService.max_retries = 5 from rfl, h.1]
  interval_cases k <;> norm_num [List.range_succ]

/-- Rate-limit-only failures never abort `embed_and_store`. -/
theorem embed_and_store_rl_only (env : IngestEnv) (ct : Int) (texts : List String)
    (metadatas : List IngestMeta) (ns : String)
    (hrl : ∀ b a e, env.embedBeh b a = .err e → VectorService.isRateLimitMsg e = true) :
    (VectorService.embed_and_store env ct texts metadatas ns).error = none := by
  unfold VectorService.embed_and_store
  by_cases he : texts.isEmpty
  · rw [if_pos he]
  · rw [if_neg he]
    exact processBatches_no_fatal env ct ns hrl _ 0

/-- A non-rate-limit embedding error on the first batch is re-raised and
aborts the whole call: only one provider call happens and nothing is
stored. -/
theorem embed_and_store_fatal_abort (env : IngestEnv) (ct : Int) (t : String)
    (ts : List String) (m : IngestMeta) (ms : List IngestMeta) (ns : String) (e : String)
    (he : env.embedBeh 0 0 = .err e) (hnr : VectorService.isRateLimitMsg e = false) :
    (VectorService.embed_and_store env ct (t :: ts) (m :: ms) ns).error = some e
    ∧ (VectorService.embed_and_store env ct (t :: ts) (m :: ms) ns).stored = []
    ∧ (VectorService.embed_and_store env ct (t :: ts) (m :: ms) ns).calls = 1 := by
  have hrr : VectorService.runRetry (env.embedBeh 0) 0 VectorService.max_retries
      = ⟨.error e, [], 1⟩ := by
    show VectorService.runRetry (env.embedBeh 0) 0 5 = _
    unfold VectorService.runRetry
    rw [he]
    dsimp only []
    rw [if_neg (by rw [hnr]; exact Bool.false_ne_true)]
  have hchunks : VectorService.chunks VectorService.batch_size (t :: ts)
      = (t :: ts.take 9) :: VectorService.chunksF 10 ts.length (ts.drop 9) := rfl
  have hchunksm : VectorService.chunks VectorService.batch_size (m :: ms)
      = (m :: ms.take 9) :: VectorService.chunksF 10 ms.length (ms.drop 9) := rfl
  unfold VectorService.embed_and_store
  rw [if_neg (by simp)]
  rw [hchunks, hchunksm]
  rw [List.zip_cons_cons]
  unfold VectorService.processBatches
  rw [hrr]
  exact ⟨rfl, rfl, rfl⟩

/-- C4 counterexample: with 12 documents (2 batches) and a non-rate-limit
embedding error on the first batch, `embed_and_store` re-raises the error:
only one provider call is made, nothing is stored, and the second batch is
never processed — a failed batch IS fatal to the whole call, refuting the
claim that any still-failing batch is logged and skipped. -/
theorem c4_counterexample :
    (VectorService.embed_and_store
        ⟨fun b _ => if b = 0 then .err "boom" else .ok [[1]], fun _ => none, fun _ _ => "u"⟩
        0 (List.replicate 12 "doc") (List.replicate 12 ⟨none⟩) "org_1").error = some "boom"
    ∧ (VectorService.embed_and_store
        ⟨fun b _ => if b = 0 then .err "boom" else .ok [[1]], fun _ => none, fun _ _ => "u"⟩
        0 (List.replicate 12 "doc") (List.replicate 12 ⟨none⟩) "org_1").stored = []
    ∧ (VectorService.embed_and_store
        ⟨fun b _ => if b = 0 then .err "boom" else .ok [[1]], fun _ => none, fun _ _ => "u"⟩
        0 (List.replicate 12 "doc") (List.replicate 12 ⟨none⟩) "org_1").calls = 1 :=
  ⟨by decide, by decide, by decide⟩

/-- C4 (amended): rate-limit failures are retried with the deterministic
backoff delays `5, 10, 20, 40, 80` seconds (up to 5 attempts), and
rate-limit-only failures are never fatal to the call (exhaustion merely
skips the batch); but a batch whose embedding fails with a
NON-rate-limit error is not skipped: the error is logged and re-raised,
aborting the whole `embed_and_store` call before any later batch runs. -/
theorem c4_retry_backoff_abort :
    (∀ (beh : Nat → EmbedTry) (k : Nat), k ≤ 5 →
      (∀ i, i < k → ∃ e, beh i = .err e ∧ VectorService.isRateLimitMsg e = true) →
      (k < 5 → ∃ vs, beh k = .ok vs) →
      (VectorService.runRetry beh 0 VectorService.max_retries).sleeps
        = ([5, 10, 20, 40, 80] : List ℚ).take k)
    ∧ (∀ (env : IngestEnv) (ct : Int) (texts : List String)
          (metadatas : List IngestMeta) (ns : String),
        (∀ b a e, env.embedBeh b a = .err e → VectorService.isRateLimitMsg e = true) →
        (VectorService.embed_and_store env ct texts metadatas ns).error = none)
    ∧ (∀ (env : IngestEnv) (ct : Int) (t : String) (ts : List String)
          (m : IngestMeta) (ms : List IngestMeta) (ns : String) (e : String),
        env.embedBeh 0 0 = .err e → VectorService.isRateLimitMsg e = false →
        (VectorService.embed_and_store env ct (t :: ts) (m :: ms) ns).error = some e
        ∧ (VectorService.embed_and_store env ct (t :: ts) (m :: ms) ns).stored = []
        ∧ (VectorService.embed_and_store env ct (t :: ts) (m :: ms) ns).calls = 1) :=
  ⟨runRetry_backoff_take,
   fun env ct texts metadatas ns hrl => embed_and_store_rl_only env ct texts metadatas ns hrl,
   fun env ct t ts m ms ns e he hnr => embed_and_store_fatal_abort env ct t ts m ms ns e he hnr⟩

/-- C4 witness: two rate-limited attempts then success give sleeps
`[5, 10]`; an always-rate-limited provider never aborts the call; a
non-rate-limit error on the first batch aborts it. -/
theorem c4_retry_backoff_abort_witness :
    (VectorService.runRetry (fun i => if i < 2 then .err "429 slow down" else .ok [[1]])
        0 VectorService.max_retries).sleeps = ([5, 10, 20, 40, 80] : List ℚ).take 2
    ∧ (VectorService.embed_and_store
        ⟨fun _ _ => .err "RateLimitError", fun _ => none, fun _ _ => "u"⟩
        0 ["doc1", "doc2"] [⟨none⟩, ⟨none⟩] "org_1").error = none
    ∧ ((VectorService.embed_and_store
          ⟨fun _ _ => .err "boom", fun _ => none, fun _ _ => "u"⟩
          0 ("doc1" :: ["doc2"]) (⟨none⟩ :: [⟨none⟩]) "org_1").error = some "boom"
        ∧ (VectorService.embed_and_store
            ⟨fun _ _ => .err "boom", fun _ => none, fun _ _ => "u"⟩
            0 ("doc1" :: ["doc2"]) (⟨none⟩ :: [⟨none⟩]) "org_1").stored = []
        ∧ (VectorService.embed_and_store
            ⟨fun _ _ => .err "boom", fun _ => none, fun _ _ => "u"⟩
            0 ("doc1" :: ["doc2"]) (⟨none⟩ :: [⟨none⟩]) "org_1").calls = 1) :=
  ⟨c4_retry_backoff_abort.1 (fun i => if i < 2 then .err "429 slow down" else .ok [[1]]) 2
      (by norm_num)
      (fun i hi => ⟨"429 slow down", by interval_cases i <;> exact ⟨rfl, by decide⟩⟩)
      (fun _ => ⟨[[1]], rfl⟩),
   c4_retry_backoff_abort.2.1
      ⟨fun _ _ => .err "RateLimitError", fun _ => none, fun _ _ => "u"⟩
      0 ["doc1", "doc2"] [⟨none⟩, ⟨none⟩] "org_1"
      (fun b a e h => by injection h with h2; rw [← h2]; decide),
   c4_retry_backoff_abort.2.2
      ⟨fun _ _ => .err "boom", fun _ => none, fun _ _ => "u"⟩
      0 "doc1" ["doc2"] ⟨none⟩ [⟨none⟩] "org_1" "boom" rfl (by decide)⟩

/-! ### C9 -/

set_option maxRecDepth 10000 in
/-- C9 counterexample: `scrub` is not idempotent.  On
`"e@f.gh0 Main St"` the email cannot match in the first pass (the `0`
after the TLD removes the trailing `\b`), the address pattern then
replaces `"0 Main St"`, and the bracket of `[ADDRESS_REDACTED]` creates a
fresh word boundary after `gh`, so a second pass redacts the email:
`scrub (scrub t) ≠ scrub t`. -/
theorem c9_counterexample :
    scrub "e@f.gh0 Main St" = "e@f.gh[ADDRESS_REDACTED]"
    ∧ scrub (scrub "e@f.gh0 Main St") = "[EMAIL_REDACTED][ADDRESS_REDACTED]"
    ∧ scrub (scrub "e@f.gh0 Main St") ≠ scrub "e@f.gh0 Main St" :=
  ⟨by decide, by decide, by decide⟩

set_option maxRecDepth 10000 in
/-- C9 (amended): `scrub` never raises (it is a total function), maps the
empty input to the empty string, and replaces emails, card numbers, phone
numbers and street addresses by their fixed redaction tokens; it is
however not idempotent in general, because a replacement can create a new
word boundary that lets an earlier pattern match on a second pass. -/
theorem c9_scrub_amended :
    scrub "" = ""
    ∧ scrub "mail bob@example.com now" = "mail [EMAIL_REDACTED] now"
    ∧ scrub "card 4111 1111 1111 1111." = "card [CREDIT_CARD_REDACTED]."
    ∧ scrub "call 555-123-4567 ok" = "call[PHONE_REDACTED] ok"
    ∧ scrub "at 12 Main Street now" = "at [ADDRESS_REDACTED] now" :=
  ⟨rfl, by decide, by decide, by decide, by decide⟩

/-! ### C10 -/

/-- C10: a retrieved document whose metadata lacks `unix_timestamp` is
treated as having timestamp `0`, so (for any real clock reading of at
least 90 days past the epoch) its age is not below 90 days and its boosted
score equals its raw score. -/
theorem c10_missing_timestamp_no_boost (current_time : Int) (d : Doc) (s : ℚ)
    (hts : d.metadata.unix_timestamp = none)
    (hnow : ReasoningEngine.ninety_days ≤ current_time) :
    ReasoningEngine.boostFactor current_time d = 1
    ∧ ∀ sr : List (Doc × ℚ), (d, s) ∈ sr →
        (d, s, s) ∈ ReasoningEngine.refined_results current_time sr := by
  have h1 : ReasoningEngine.boostFactor current_time d = 1 := by
    unfold ReasoningEngine.boostFactor
    rw [hts]
    simp only [Option.getD_none]
    rw [if_neg]
    omega
  refine ⟨h1, fun sr hmem => ?_⟩
  have : (d, s, s * ReasoningEngine.boostFactor current_time d) ∈
      ReasoningEngine.refined_results current_time sr :=
    List.mem_map.mpr ⟨(d, s), hmem, rfl⟩
  rwa [h1, mul_one] at this

/-- C10 witness: a document with no `unix_timestamp`, clock at exactly
90 days past the epoch. -/
theorem c10_missing_timestamp_no_boost_witness :
    ReasoningEngine.boostFactor 7776000 ⟨"doc", ⟨none, none, none⟩⟩ = 1
    ∧ ∀ sr : List (Doc × ℚ), (⟨"doc", ⟨none, none, none⟩⟩, (1:ℚ)/2) ∈ sr →
        (⟨"doc", ⟨none, none, none⟩⟩, (1:ℚ)/2, (1:ℚ)/2) ∈
          ReasoningEngine.refined_results 7776000 sr :=
  c10_missing_timestamp_no_boost 7776000 ⟨"doc", ⟨none, none, none⟩⟩ (1/2) rfl (by decide)

/-! ### C8 — the widget always answers in one of the defined tiers -/

theorem timeoutFallback_tier (sr : List (Doc × ℚ)) :
    IsTierText (Widget.timeoutFallback sr) := by
  unfold Widget.timeoutFallback
  by_cases he : sr.isEmpty
  · rw [if_pos he]
    exact Or.inr (Or.inl rfl)
  · rw [if_neg he]
    exact Or.inr (Or.inr (Or.inr (Or.inr (Or.inr (Or.inl ⟨_, rfl⟩)))))

theorem fullTierText_tier (draft : String) (c : ℚ) (sources : List String) :
    IsTierText (Widget.fullTierText draft c sources) := by
  unfold Widget.fullTierText Widget.confidenceEmoji
  by_cases h1 : c ≥ 3/5
  · rw [if_pos h1]
    exact Or.inr (Or.inr (Or.inl ⟨_, rfl⟩))
  · rw [if_neg h1]
    by_cases h2 : c ≥ 7/20
    · rw [if_pos h2]
      exact Or.inr (Or.inr (Or.inr (Or.inl ⟨_, rfl⟩)))
    · rw [if_neg h2]
      exact Or.inr (Or.inr (Or.inr (Or.inr (Or.inl ⟨_, rfl⟩))))

/-- C8: for every widget request, the endpoint returns a well-formed short
text response in one of the defined tiers (full answer, search-only,
no-result, instructional short-circuit, or catch-all error); every stage's
exception is converted into a tier and none propagates —
`gorgias_widget` is a total function into responses. -/
theorem c8_always_tier_response (env : Widget.WidgetEnv) :
    IsTierText (Widget.gorgias_widget env).text := by
  unfold Widget.gorgias_widget
  rcases env.ctxErr with _ | e
  · rcases hres : Widget.resolveInputs env with e | ⟨tb, em⟩
    · exact Or.inr (Or.inr (Or.inr (Or.inr (Or.inr (Or.inr ⟨_, rfl⟩)))))
    · dsimp only []
      by_cases htb : tb = ""
      · rw [if_pos htb]
        exact Or.inl rfl
      · rw [if_neg htb]
        unfold Widget.widgetCore
        by_cases hrem : Widget.TOTAL_BUDGET - env.elapsedAtCore ≤ 1
        · rw [if_pos hrem]
          exact timeoutFallback_tier []
        · rw [if_neg hrem]
          by_cases hot : env.outerTimeout
          · rw [if_pos hot]
            exact timeoutFallback_tier []
          · rw [if_neg hot]
            rcases env.searchRes with e | results
            · exact Or.inr (Or.inr (Or.inr (Or.inr (Or.inr (Or.inr ⟨_, rfl⟩)))))
            · dsimp only []
              by_cases hsl : env.elapsedAfterSearch > 3
              · rw [if_pos hsl]
                exact timeoutFallback_tier results
              · rw [if_neg hsl]
                rcases (ReasoningEngine.generate_response env.pySet env.now results
                    env.llm).suggested_draft with _ | draft
                · exact Or.inr (Or.inr (Or.inr (Or.inr (Or.inr (Or.inr ⟨_, rfl⟩)))))
                · exact fullTierText_tier draft _ _
  · exact Or.inr (Or.inr (Or.inr (Or.inr (Or.inr (Or.inr ⟨_, rfl⟩)))))

/-! ### C1 — partial-result reuse on timeout -/

theorem widgetCore_searchCalls (env : Widget.WidgetEnv) :
    (Widget.widgetCore env).searchCalls ≤ 1 := by
  unfold Widget.widgetCore
  by_cases hrem : Widget.TOTAL_BUDGET - env.elapsedAtCore ≤ 1
  · rw [if_pos hrem]; norm_num
  · rw [if_neg hrem]
    by_cases hot : env.outerTimeout
    · rw [if_pos hot]
    · rw [if_neg hot]
      rcases env.searchRes with e | results
      · exact le_refl 1
      · dsimp only []
        by_cases hsl : env.elapsedAfterSearch > 3
        · rw [if_pos hsl]
        · rw [if_neg hsl]
          rcases (ReasoningEngine.generate_response env.pySet env.now results
              env.llm).suggested_draft with _ | draft
          · exact le_refl 1
          · exact le_refl 1

unseal Rat.add Rat.sub Rat.mul Rat.inv in
/-- C1 counterexample: the combined search+synthesize unit is cancelled by
the outer timeout (`outerTimeout = true`) after retrieval completed with a
usable match, yet the widget returns the fixed "not ready" message (the
results are discarded: `pipeline_result` is never assigned, so the outer
`search_results` is still `[]`), which is not the search-only tier built
from those results. -/
theorem c1_counterexample :
    Widget.gorgias_widget
      ⟨none, some "Shipping question", none, none, none, false, .fetched none, 1/2,
       .ok [(⟨"The customer was refunded after the courier confirmed the parcel was lost in transit.",
              ⟨some 0, some "42", none⟩⟩, 4/5)],
       0, true, 0, .ok ⟨none, none, none⟩, fun l => l⟩
      = ⟨Widget.notReadyText, 1⟩
    ∧ Widget.notReadyText ≠ Widget.degradedText
        [(⟨"The customer was refunded after the courier confirmed the parcel was lost in transit.",
           ⟨some 0, some "42", none⟩⟩, 4/5)] :=
  ⟨by decide, by decide⟩

/-- C1 (amended): when the outer timeout fires — pre-emptively
(`remaining <= 1.0`) or by cancelling the unit — the widget returns the
fixed "not ready" message, discarding any retrieval results computed
inside the cancelled unit; the degraded response is built from the same
retrieval results only on the internal 3.0s synthesis-skip path, where the
pipeline returns normally before the timeout; in all cases at most one
retrieval call is issued (never a second one). -/
theorem c1_timeout_partial_reuse (env : Widget.WidgetEnv) :
    ((Widget.TOTAL_BUDGET - env.elapsedAtCore ≤ 1 ∨ env.outerTimeout = true) →
      (Widget.widgetCore env).text = Widget.notReadyText)
    ∧ (∀ r, ¬ Widget.TOTAL_BUDGET - env.elapsedAtCore ≤ 1 → env.outerTimeout = false →
        env.searchRes = .ok r → env.elapsedAfterSearch > 3 →
        Widget.widgetCore env = ⟨Widget.timeoutFallback r, 1⟩)
    ∧ (Widget.gorgias_widget env).searchCalls ≤ 1 := by
  refine ⟨?_, ?_, ?_⟩
  · intro h
    unfold Widget.widgetCore
    by_cases hrem : Widget.TOTAL_BUDGET - env.elapsedAtCore ≤ 1
    · rw [if_pos hrem]
      rfl
    · rw [if_neg hrem]
      rcases h with h | h
      · exact absurd h hrem
      · rw [if_pos h]
        rfl
  · intro r hrem hot hsr hsl
    unfold Widget.widgetCore
    rw [if_neg hrem, if_neg (by rw [hot]; exact Bool.false_ne_true), hsr]
    dsimp only []
    rw [if_pos hsl]
  · unfold Widget.gorgias_widget
    rcases env.ctxErr with _ | e
    · rcases Widget.resolveInputs env with e | ⟨tb, em⟩
      · norm_num
      · dsimp only []
        by_cases htb : tb = ""
        · rw [if_pos htb]; norm_num
        · rw [if_neg htb]
          exact widgetCore_searchCalls env
    · norm_num

unseal Rat.add Rat.sub Rat.mul Rat.inv in
/-- C1 witness: an outer-timeout request yields the "not ready" text; a
synthesis-skip request (search done, elapsed 3.5s > 3.0s) yields the
fallback built from the same results; search is called at most once. -/
theorem c1_timeout_partial_reuse_witness :
    (Widget.widgetCore
      ⟨none, some "Shipping question", none, none, none, false, .fetched none, 1/2,
       .ok [(⟨"The customer was refunded after the courier confirmed the parcel was lost in transit.",
              ⟨some 0, some "42", none⟩⟩, 4/5)],
       0, true, 0, .ok ⟨none, none, none⟩, fun l => l⟩).text = Widget.notReadyText
    ∧ Widget.widgetCore
        ⟨none, some "Shipping question", none, none, none, false, .fetched none, 1/2,
         .ok [(⟨"The customer was refunded after the courier confirmed the parcel was lost in transit.",
                ⟨some 0, some "42", none⟩⟩, 4/5)],
         7/2, false, 0, .ok ⟨none, none, none⟩, fun l => l⟩
        = ⟨Widget.timeoutFallback
            [(⟨"The customer was refunded after the courier confirmed the parcel was lost in transit.",
               ⟨some 0, some "42", none⟩⟩, 4/5)], 1⟩
    ∧ (Widget.gorgias_widget
        ⟨none, some "Shipping question", none, none, none, false, .fetched none, 1/2,
         .ok [(⟨"The customer was refunded after the courier confirmed the parcel was lost in transit.",
                ⟨some 0, some "42", none⟩⟩, 4/5)],
         0, true, 0, .ok ⟨none, none, none⟩, fun l => l⟩).searchCalls ≤ 1 :=
  ⟨(c1_timeout_partial_reuse _).1 (Or.inr rfl),
   (c1_timeout_partial_reuse _).2.1
     [(⟨"The customer was refunded after the courier confirmed the parcel was lost in transit.",
        ⟨some 0, some "42", none⟩⟩, 4/5)]
     (by decide) rfl rfl (by decide),
   (c1_timeout_partial_reuse _).2.2⟩

end GorgiasBrain
